import Mathlib

/-!
Verification of the order lifecycle workflow engine of the food-delivery-api
repository. The definitions below are a shallow embedding of the Go source:
`statemachine/order_state.go` (transition table and validator) and the order
handlers in `handlers/customer.go`, `handlers/restaurant_order.go`,
`handlers/driver.go` and the admin handler (`AdminForceOrderStatus`).
Monetary amounts, timestamps and ETA fields are not referenced by any
property proved here and are left out of the record types.
-/

namespace FoodDelivery

/-- The seven order statuses declared in `models` (OrderStatus constants). -/
inductive OrderStatus where
  | placed
  | confirmed
  | preparing
  | readyForPickup
  | pickedUp
  | delivered
  | cancelled
deriving DecidableEq, Repr, Fintype

/-- The wire string of each status constant. -/
def OrderStatus.toGoString : OrderStatus → String
  | .placed => "PLACED"
  | .confirmed => "CONFIRMED"
  | .preparing => "PREPARING"
  | .readyForPickup => "READY_FOR_PICKUP"
  | .pickedUp => "PICKED_UP"
  | .delivered => "DELIVERED"
  | .cancelled => "CANCELLED"

/-- `statemachine.Transition`: a valid state change and who can perform it.
The actor is a plain string in the source, so it is a `String` here. -/
structure Transition where
  fromStatus : OrderStatus
  toStatus : OrderStatus
  actor : String
deriving DecidableEq, Repr

/-- `statemachine.validTransitions`: the authoritative table, 9 triples. -/
def validTransitions : List Transition :=
  [ { fromStatus := .placed, toStatus := .confirmed, actor := "restaurant" },
    { fromStatus := .placed, toStatus := .cancelled, actor := "restaurant" },
    { fromStatus := .placed, toStatus := .cancelled, actor := "customer" },
    { fromStatus := .confirmed, toStatus := .preparing, actor := "restaurant" },
    { fromStatus := .confirmed, toStatus := .cancelled, actor := "restaurant" },
    { fromStatus := .confirmed, toStatus := .cancelled, actor := "customer" },
    { fromStatus := .preparing, toStatus := .readyForPickup, actor := "restaurant" },
    { fromStatus := .readyForPickup, toStatus := .pickedUp, actor := "driver" },
    { fromStatus := .pickedUp, toStatus := .delivered, actor := "driver" } ]

/-- `statemachine.transitionKey`: the lookup key of the O(1) map. -/
structure TransitionKey where
  fromStatus : OrderStatus
  toStatus : OrderStatus
  actor : String
deriving DecidableEq, Repr

/-- `statemachine.transitionMap`: the map built at initialization by inserting
every table row; looking a key up in it is exactly membership of the matching
triple in `validTransitions`. -/
def transitionMap (k : TransitionKey) : Bool :=
  validTransitions.any fun t =>
    decide (t.fromStatus = k.fromStatus) && decide (t.toStatus = k.toStatus) &&
      decide (t.actor = k.actor)

/-- `statemachine.ValidTransitionsFrom`: all valid next states from a status,
first-seen order, deduplicated (the Go loop with its `seen` map). -/
def ValidTransitionsFrom (status : OrderStatus) : List OrderStatus :=
  validTransitions.foldl
    (fun nexts t =>
      if t.fromStatus = status ∧ ¬ nexts.contains t.toStatus then nexts ++ [t.toStatus]
      else nexts)
    []

/-- `statemachine.describeValidFrom`: human-readable list of next states. -/
def describeValidFrom (status : OrderStatus) : String :=
  let nexts := ValidTransitionsFrom status
  if nexts.isEmpty then "none (terminal state)"
  else String.intercalate ", " (nexts.map OrderStatus.toGoString)

/-- The error message `statemachine.CanTransition` builds on denial. -/
def transitionErrMsg (f t : OrderStatus) (actor : String) : String :=
  ("invalid transition: " ++ f.toGoString ++ " → " ++ t.toGoString ++
    " is not allowed for actor " ++ actor ++ ". " ++
    "Valid transitions from " ++ f.toGoString ++ " are: ") ++ describeValidFrom f

/-- `statemachine.CanTransition`: `none` models the Go `nil` error (success),
`some msg` models the returned error. -/
def CanTransition (f t : OrderStatus) (actor : String) : Option String :=
  if transitionMap { fromStatus := f, toStatus := t, actor := actor } then none
  else some (transitionErrMsg f t actor)

/-- `models.Order`, restricted to the workflow-relevant fields. `driverId` is
the Go pointer `DriverID *uint` (`none` = nil). -/
structure OrderRec where
  id : Nat
  customerId : Nat
  restaurantId : Nat
  driverId : Option Nat
  status : OrderStatus
deriving DecidableEq, Repr

/-- `models.OrderStatusHistory`. The Go zero values for an omitted
`FromStatus` (empty string) and an omitted `ChangedBy` (0) are modelled as
`none`. -/
structure HistRec where
  orderId : Nat
  fromStatus : Option OrderStatus
  toStatus : OrderStatus
  changedBy : Option Nat
  note : String
deriving DecidableEq, Repr

/-- `models.Restaurant`, restricted to the fields the order handlers read. -/
structure RestaurantRec where
  id : Nat
  ownerId : Nat
  isOpen : Bool
deriving DecidableEq, Repr

/-- `models.MenuItem`, restricted to the fields `PlaceOrder` checks. -/
structure MenuItemRec where
  id : Nat
  restaurantId : Nat
  isAvailable : Bool
  name : String
deriving DecidableEq, Repr

/-- The database state the handlers read and write. History records are kept
in creation order; `nextOrderId` models the auto-incremented primary key. -/
structure Db where
  orders : List OrderRec
  restaurants : List RestaurantRec
  menuItems : List MenuItemRec
  history : List HistRec
  nextOrderId : Nat
deriving DecidableEq, Repr

/-- `config.DB.First(&order, orderID)`. -/
def Db.getOrder (σ : Db) (oid : Nat) : Option OrderRec :=
  σ.orders.find? fun o => o.id == oid

/-- A GORM `Model(&order).Update/Updates` call: rewrite the row with the
order's primary key. -/
def Db.updateOrder (σ : Db) (oid : Nat) (f : OrderRec → OrderRec) : Db :=
  { σ with orders := σ.orders.map fun o => if o.id = oid then f o else o }

/-- `config.DB.Create(&history)`: append one audit record. -/
def Db.appendHistory (σ : Db) (r : HistRec) : Db :=
  { σ with history := σ.history ++ [r] }

/-- The JSON body the handlers attach to a 422 "Invalid state transition" /
"Cannot cancel order" response. A field the handler does not emit is `none`. -/
structure InvalidBody where
  error : String
  currentStatus : OrderStatus
  requested : Option OrderStatus
  reason : String
  validNextStates : Option (List OrderStatus)
deriving DecidableEq, Repr

/-- The outcome of one handler call, by HTTP status and payload shape. -/
inductive HandlerResult where
  | okPlaced (orderId : Nat)
  | okUpdated (orderId : Nat) (previousStatus newStatus : OrderStatus)
  | okPickedUp (orderId : Nat)
  | okDelivered (orderId : Nat)
  | okCancelled (orderId : Nat)
  | okForced (orderId : Nat) (previousStatus newStatus : OrderStatus)
  | notFound (msg : String)
  | forbidden (msg : String)
  | conflict (msg : String)
  | badRequest (msg : String)
  | unprocessable (body : InvalidBody)
deriving DecidableEq, Repr

/-- One line of `PlaceOrderRequest.Items`. -/
structure PlaceOrderItem where
  menuItemId : Nat
  quantity : Nat
deriving DecidableEq, Repr

/-- `handlers.PlaceOrderRequest`, restricted to the workflow-relevant part. -/
structure PlaceOrderRequest where
  restaurantId : Nat
  items : List PlaceOrderItem
deriving DecidableEq, Repr

/-- The per-item validation loop of `PlaceOrder` (existence, ownership,
availability); `none` means every item passed. -/
def checkItems (σ : Db) (restaurantId : Nat) : List PlaceOrderItem → Option String
  | [] => none
  | it :: rest =>
    match σ.menuItems.find? (fun m => m.id == it.menuItemId) with
    | none => some "Menu item not found"
    | some m =>
      if m.restaurantId ≠ restaurantId then some "Menu item does not belong to this restaurant"
      else if ¬ m.isAvailable then some ("Menu item " ++ m.name ++ " is not available")
      else checkItems σ restaurantId rest

/-- `handlers.PlaceOrder` (customer). The leading guard models the gin
binding rule `items: required, min=1` with `quantity: min=1`. -/
def placeOrder (σ : Db) (customerId : Nat) (req : PlaceOrderRequest) : HandlerResult × Db :=
  if req.items.isEmpty || req.items.any (fun it => it.quantity < 1) then
    (.badRequest "binding failed", σ)
  else
    match σ.restaurants.find? (fun r => r.id == req.restaurantId) with
    | none => (.notFound "Restaurant not found", σ)
    | some rest =>
      if ¬ rest.isOpen then (.badRequest "Restaurant is currently closed", σ)
      else
        match checkItems σ req.restaurantId req.items with
        | some msg => (.badRequest msg, σ)
        | none =>
          (.okPlaced σ.nextOrderId,
            Db.appendHistory
              { σ with
                orders := σ.orders ++
                  [{ id := σ.nextOrderId, customerId := customerId,
                     restaurantId := req.restaurantId, driverId := none, status := .placed }],
                nextOrderId := σ.nextOrderId + 1 }
              { orderId := σ.nextOrderId, fromStatus := none, toStatus := .placed,
                changedBy := some customerId, note := "Order placed by customer" })

/-- `handlers.UpdateOrderStatusRequest`. -/
structure UpdateStatusRequest where
  status : OrderStatus
  note : String
deriving DecidableEq, Repr

/-- `handlers.UpdateOrderStatus` (restaurant owner). -/
def updateOrderStatus (σ : Db) (ownerId oid : Nat) (req : UpdateStatusRequest) :
    HandlerResult × Db :=
  match σ.restaurants.find? (fun r => r.ownerId == ownerId) with
  | none => (.notFound "No restaurant found for your account", σ)
  | some rest =>
    match σ.getOrder oid with
    | none => (.notFound "Order not found", σ)
    | some order =>
      if order.restaurantId ≠ rest.id then
        (.forbidden "This order does not belong to your restaurant", σ)
      else
        match CanTransition order.status req.status "restaurant" with
        | some msg =>
          (.unprocessable
            { error := "Invalid state transition", currentStatus := order.status,
              requested := some req.status, reason := msg,
              validNextStates := some (ValidTransitionsFrom order.status) }, σ)
        | none =>
          (.okUpdated oid order.status req.status,
            (σ.updateOrder oid fun o => { o with status := req.status }).appendHistory
              { orderId := oid, fromStatus := some order.status, toStatus := req.status,
                changedBy := some ownerId, note := req.note })

/-- `handlers.CancelOrder` (customer). -/
def cancelOrder (σ : Db) (customerId oid : Nat) : HandlerResult × Db :=
  match σ.getOrder oid with
  | none => (.notFound "Order not found", σ)
  | some order =>
    if order.customerId ≠ customerId then
      (.forbidden "This order does not belong to you", σ)
    else
      match CanTransition order.status .cancelled "customer" with
      | some msg =>
        (.unprocessable
          { error := "Cannot cancel order", currentStatus := order.status,
            requested := none, reason := msg, validNextStates := none }, σ)
      | none =>
        (.okCancelled oid,
          (σ.updateOrder oid fun o => { o with status := .cancelled }).appendHistory
            { orderId := oid, fromStatus := some order.status, toStatus := .cancelled,
              changedBy := some customerId, note := "Order cancelled by customer" })

/-- The pure decision `PickupOrder` takes on the order row it read: the
`DriverID != nil` conflict check comes first, then the validator. -/
inductive PickupDecision where
  | conflictTaken
  | invalid (body : InvalidBody)
  | proceed
deriving DecidableEq, Repr

def pickupCheck (order : OrderRec) : PickupDecision :=
  if order.driverId.isSome then .conflictTaken
  else
    match CanTransition order.status .pickedUp "driver" with
    | some msg =>
      .invalid
        { error := "Invalid state transition", currentStatus := order.status,
          requested := none, reason := msg,
          validNextStates := some (ValidTransitionsFrom order.status) }
    | none => .proceed

/-- The write part of `PickupOrder`: `Updates{status, driver_id}` keyed by the
snapshot's primary key, then `Create(&history)` with the snapshot's previous
status. -/
def pickupCommit (σ : Db) (order : OrderRec) (driverId : Nat) : Db :=
  (σ.updateOrder order.id fun o => { o with status := .pickedUp, driverId := some driverId
    }).appendHistory
    { orderId := order.id, fromStatus := some order.status, toStatus := .pickedUp,
      changedBy := some driverId, note := "Driver picked up the order" }

/-- `handlers.PickupOrder` (driver), as one sequential run: read, decide on
the snapshot, commit. -/
def pickupOrder (σ : Db) (driverId oid : Nat) : HandlerResult × Db :=
  match σ.getOrder oid with
  | none => (.notFound "Order not found", σ)
  | some order =>
    match pickupCheck order with
    | .conflictTaken => (.conflict "Order has already been picked up by another driver", σ)
    | .invalid b => (.unprocessable b, σ)
    | .proceed => (.okPickedUp oid, pickupCommit σ order driverId)

/-- `handlers.DeliverOrder` (driver). -/
def deliverOrder (σ : Db) (driverId oid : Nat) : HandlerResult × Db :=
  match σ.getOrder oid with
  | none => (.notFound "Order not found", σ)
  | some order =>
    if order.driverId ≠ some driverId then
      (.forbidden "You are not the assigned driver for this order", σ)
    else
      match CanTransition order.status .delivered "driver" with
      | some msg =>
        (.unprocessable
          { error := "Invalid state transition", currentStatus := order.status,
            requested := none, reason := msg, validNextStates := none }, σ)
      | none =>
        (.okDelivered oid,
          (σ.updateOrder oid fun o => { o with status := .delivered }).appendHistory
            { orderId := oid, fromStatus := some order.status, toStatus := .delivered,
              changedBy := some driverId, note := "Order delivered to customer" })

/-- `handlers.AdminForceOrderStatus` (admin): no validator call; the audit
record carries no `ChangedBy` and its note is tagged `[ADMIN OVERRIDE] `. -/
def adminForceOrderStatus (σ : Db) (oid : Nat) (reqStatus : OrderStatus) (reason : String) :
    HandlerResult × Db :=
  match σ.getOrder oid with
  | none => (.notFound "Order not found", σ)
  | some order =>
    (.okForced oid order.status reqStatus,
      (σ.updateOrder oid fun o => { o with status := reqStatus }).appendHistory
        { orderId := oid, fromStatus := some order.status, toStatus := reqStatus,
          changedBy := none, note := "[ADMIN OVERRIDE] " ++ reason })

/-- Initial state of the "single claim" race scenario of spec §8: order 1 is
READY_FOR_PICKUP and unassigned. -/
def raceDb : Db :=
  { orders := [{ id := 1, customerId := 2, restaurantId := 3,
                 driverId := none, status := .readyForPickup }],
    restaurants := [], menuItems := [], history := [], nextOrderId := 2 }

/-- The order row that each of two concurrent pickup requests reads from
`raceDb` before either one writes: `PickupOrder` takes its conflict and
validation decisions on this snapshot alone. -/
def raceSnapshot : OrderRec :=
  { id := 1, customerId := 2, restaurantId := 3,
    driverId := none, status := .readyForPickup }

lemma transitionMap_eq_true_iff (k : TransitionKey) :
    transitionMap k = true ↔
      Transition.mk k.fromStatus k.toStatus k.actor ∈ validTransitions := by
  unfold transitionMap
  rw [List.any_eq_true]
  constructor
  · rintro ⟨t, ht, hp⟩
    simp only [Bool.and_eq_true, decide_eq_true_eq] at hp
    obtain ⟨⟨h1, h2⟩, h3⟩ := hp
    have : t = Transition.mk k.fromStatus k.toStatus k.actor := by
      cases t; simp_all
    rwa [this] at ht
  · intro hm
    exact ⟨_, hm, by simp⟩

lemma canTransition_none_iff (f t : OrderStatus) (a : String) :
    CanTransition f t a = none ↔ Transition.mk f t a ∈ validTransitions := by
  unfold CanTransition
  by_cases h : transitionMap { fromStatus := f, toStatus := t, actor := a } = true
  · simp only [h, if_true]
    simpa using (transitionMap_eq_true_iff { fromStatus := f, toStatus := t, actor := a }).1 h
  · simp only [Bool.not_eq_true] at h
    simp only [h, Bool.false_eq_true, if_false]
    constructor
    · intro hc; exact absurd hc (by simp)
    · intro hm
      exact absurd ((transitionMap_eq_true_iff
        { fromStatus := f, toStatus := t, actor := a }).2 (by simpa using hm)) (by simp [h])

lemma canTransition_some_eq {f t : OrderStatus} {a : String} {m : String}
    (h : CanTransition f t a = some m) : m = transitionErrMsg f t a := by
  unfold CanTransition at h
  split at h
  · exact absurd h (by simp)
  · exact (Option.some.injEq _ _ ▸ h).symm

lemma validTransitions_fromStatus_not_terminal :
    ∀ tr ∈ validTransitions, tr.fromStatus ≠ .delivered ∧ tr.fromStatus ≠ .cancelled := by
  intro tr htr
  fin_cases htr <;> exact ⟨by decide, by decide⟩

/-- C1: `CanTransition(from, to, actor)` succeeds (returns nil) exactly when the
triple `(from, to, actor)` is one of the 9 rows of `validTransitions`; in
particular an actor role matching no row for `(from, to)` is always denied,
even when some other role could make that stage move. -/
theorem canTransition_iff_table :
    (∀ f t a, CanTransition f t a = none ↔ Transition.mk f t a ∈ validTransitions) ∧
    (∀ f t a,
      (∀ tr ∈ validTransitions, ¬ (tr.fromStatus = f ∧ tr.toStatus = t ∧ tr.actor = a)) →
        CanTransition f t a ≠ none) := by
  refine ⟨fun f t a => canTransition_none_iff f t a, fun f t a hno hc => ?_⟩
  have hm := (canTransition_none_iff f t a).1 hc
  exact hno _ hm ⟨rfl, rfl, rfl⟩

theorem canTransition_iff_table_witness :
    CanTransition .placed .confirmed "customer" ≠ none :=
  canTransition_iff_table.2 OrderStatus.placed OrderStatus.confirmed "customer" (by decide)

/-- C4: a stage is terminal exactly when `ValidTransitionsFrom` of it is empty;
for this table precisely DELIVERED and CANCELLED are terminal, and from a
terminal stage every `CanTransition` request (any desired stage, any actor
string) is denied. -/
theorem terminal_iff_no_next_stages :
    (∀ s, ValidTransitionsFrom s = [] ↔ (s = .delivered ∨ s = .cancelled)) ∧
    (∀ s t a, ValidTransitionsFrom s = [] → CanTransition s t a ≠ none) := by
  have h1 : ∀ s : OrderStatus, ValidTransitionsFrom s = [] ↔
      (s = .delivered ∨ s = .cancelled) := by decide
  refine ⟨h1, fun s t a hterm hc => ?_⟩
  have hm := (canTransition_none_iff s t a).1 hc
  have hne := validTransitions_fromStatus_not_terminal _ hm
  rcases (h1 s).1 hterm with hs | hs
  · exact hne.1 (by rw [hs])
  · exact hne.2 (by rw [hs])

theorem terminal_iff_no_next_stages_witness :
    CanTransition .delivered .placed "restaurant" ≠ none :=
  terminal_iff_no_next_stages.2 OrderStatus.delivered OrderStatus.placed "restaurant" (by decide)

lemma find?_append_of_none {α : Type} (p : α → Bool) {l1 : List α} (l2 : List α)
    (h : l1.find? p = none) : (l1 ++ l2).find? p = l2.find? p := by
  induction l1 with
  | nil => simp
  | cons x xs ih =>
    cases hpx : p x with
    | true =>
      rw [List.find?_cons_of_pos _ hpx] at h
      exact absurd h (by simp)
    | false =>
      rw [List.find?_cons_of_neg _ (by simp [hpx])] at h
      rw [List.cons_append, List.find?_cons_of_neg _ (by simp [hpx])]
      exact ih h

lemma find?_map_update (oid : Nat) (f : OrderRec → OrderRec)
    (hid : ∀ o, (f o).id = o.id) :
    ∀ l : List OrderRec,
      (l.map fun o => if o.id = oid then f o else o).find? (fun o => o.id == oid) =
        (l.find? fun o => o.id == oid).map f
  | [] => by simp
  | o :: tl => by
    rw [List.map_cons]
    by_cases h : o.id = oid
    · rw [List.find?_cons_of_pos _ (by simp [h, hid]),
        List.find?_cons_of_pos _ (by simp [h])]
      simp [h]
    · rw [List.find?_cons_of_neg _ (by simp [h]), List.find?_cons_of_neg _ (by simp [h])]
      exact find?_map_update oid f hid tl

lemma getOrder_updateOrder (σ : Db) (oid : Nat) (f : OrderRec → OrderRec)
    (hid : ∀ o, (f o).id = o.id) :
    (σ.updateOrder oid f).getOrder oid = (σ.getOrder oid).map f := by
  unfold Db.getOrder Db.updateOrder
  exact find?_map_update oid f hid σ.orders

lemma getOrder_appendHistory (σ : Db) (r : HistRec) (oid : Nat) :
    (σ.appendHistory r).getOrder oid = σ.getOrder oid := rfl

lemma getOrder_setStatus (σ : Db) (oid : Nat) (st : OrderStatus) :
    (σ.updateOrder oid fun x => { x with status := st }).getOrder oid =
      (σ.getOrder oid).map fun x => { x with status := st } :=
  getOrder_updateOrder σ oid (fun x => { x with status := st }) fun _ => rfl

lemma getOrder_setStatusDriver (σ : Db) (oid : Nat) (st : OrderStatus) (d : Nat) :
    (σ.updateOrder oid fun x => { x with status := st, driverId := some d }).getOrder oid =
      (σ.getOrder oid).map fun x => { x with status := st, driverId := some d } :=
  getOrder_updateOrder σ oid (fun x => { x with status := st, driverId := some d }) fun _ => rfl

lemma placeOrder_ok_spec {σ : Db} {customerId : Nat} {req : PlaceOrderRequest}
    {oid : Nat} {σ2 : Db}
    (heq : placeOrder σ customerId req = (.okPlaced oid, σ2)) :
    oid = σ.nextOrderId ∧
      σ2 = Db.appendHistory
        { σ with
          orders := σ.orders ++
            [{ id := σ.nextOrderId, customerId := customerId,
               restaurantId := req.restaurantId, driverId := none, status := .placed }],
          nextOrderId := σ.nextOrderId + 1 }
        { orderId := σ.nextOrderId, fromStatus := none, toStatus := .placed,
          changedBy := some customerId, note := "Order placed by customer" } := by
  unfold placeOrder at heq
  split at heq
  · exact absurd heq (by simp)
  · split at heq
    · exact absurd heq (by simp)
    · split at heq
      · exact absurd heq (by simp)
      · split at heq
        · exact absurd heq (by simp)
        · simp only [Prod.mk.injEq, HandlerResult.okPlaced.injEq] at heq
          exact ⟨heq.1.symm, heq.2.symm⟩

lemma updateOrderStatus_ok_spec {σ : Db} {ownerId oid : Nat} {req : UpdateStatusRequest}
    {prev new : OrderStatus} {σ2 : Db}
    (heq : updateOrderStatus σ ownerId oid req = (.okUpdated oid prev new, σ2)) :
    ∃ o, σ.getOrder oid = some o ∧ prev = o.status ∧ new = req.status ∧
      CanTransition o.status req.status "restaurant" = none ∧
      σ2 = (σ.updateOrder oid fun x => { x with status := req.status }).appendHistory
        { orderId := oid, fromStatus := some o.status, toStatus := req.status,
          changedBy := some ownerId, note := req.note } := by
  unfold updateOrderStatus at heq
  split at heq
  · exact absurd heq (by simp)
  · split at heq
    · exact absurd heq (by simp)
    next o hget =>
      split at heq
      · exact absurd heq (by simp)
      · split at heq
        · exact absurd heq (by simp)
        next hcan =>
          simp only [Prod.mk.injEq, HandlerResult.okUpdated.injEq] at heq
          exact ⟨o, hget, heq.1.2.1.symm, heq.1.2.2.symm, hcan, heq.2.symm⟩

lemma cancelOrder_ok_spec {σ : Db} {customerId oid : Nat} {σ2 : Db}
    (heq : cancelOrder σ customerId oid = (.okCancelled oid, σ2)) :
    ∃ o, σ.getOrder oid = some o ∧ o.customerId = customerId ∧
      CanTransition o.status .cancelled "customer" = none ∧
      σ2 = (σ.updateOrder oid fun x => { x with status := .cancelled }).appendHistory
        { orderId := oid, fromStatus := some o.status, toStatus := .cancelled,
          changedBy := some customerId, note := "Order cancelled by customer" } := by
  unfold cancelOrder at heq
  split at heq
  · exact absurd heq (by simp)
  next o hget =>
    split at heq
    · exact absurd heq (by simp)
    next hown =>
      split at heq
      · exact absurd heq (by simp)
      next hcan =>
        simp only [Prod.mk.injEq] at heq
        exact ⟨o, hget, not_ne_iff.mp hown, hcan, heq.2.symm⟩

lemma pickupOrder_ok_spec {σ : Db} {driverId oid : Nat} {σ2 : Db}
    (heq : pickupOrder σ driverId oid = (.okPickedUp oid, σ2)) :
    ∃ o, σ.getOrder oid = some o ∧ o.driverId = none ∧
      CanTransition o.status .pickedUp "driver" = none ∧
      σ2 = pickupCommit σ o driverId := by
  unfold pickupOrder at heq
  split at heq
  · exact absurd heq (by simp)
  next o hget =>
    split at heq
    · exact absurd heq (by simp)
    · exact absurd heq (by simp)
    next hcheck =>
      have hdecide := hcheck
      unfold pickupCheck at hdecide
      split at hdecide
      · exact absurd hdecide (by simp)
      next hdrv =>
        split at hdecide
        · exact absurd hdecide (by simp)
        next hcan =>
          simp only [Prod.mk.injEq] at heq
          exact ⟨o, hget, Option.not_isSome_iff_eq_none.mp hdrv, hcan, heq.2.symm⟩

lemma deliverOrder_ok_spec {σ : Db} {driverId oid : Nat} {σ2 : Db}
    (heq : deliverOrder σ driverId oid = (.okDelivered oid, σ2)) :
    ∃ o, σ.getOrder oid = some o ∧ o.driverId = some driverId ∧
      CanTransition o.status .delivered "driver" = none ∧
      σ2 = (σ.updateOrder oid fun x => { x with status := .delivered }).appendHistory
        { orderId := oid, fromStatus := some o.status, toStatus := .delivered,
          changedBy := some driverId, note := "Order delivered to customer" } := by
  unfold deliverOrder at heq
  split at heq
  · exact absurd heq (by simp)
  next o hget =>
    split at heq
    · exact absurd heq (by simp)
    next hdrv =>
      split at heq
      · exact absurd heq (by simp)
      next hcan =>
        simp only [Prod.mk.injEq] at heq
        exact ⟨o, hget, not_ne_iff.mp hdrv, hcan, heq.2.symm⟩

lemma adminForce_ok_spec {σ : Db} {oid : Nat} {reqStatus : OrderStatus} {reason : String}
    {prev new : OrderStatus} {σ2 : Db}
    (heq : adminForceOrderStatus σ oid reqStatus reason = (.okForced oid prev new, σ2)) :
    ∃ o, σ.getOrder oid = some o ∧ prev = o.status ∧ new = reqStatus ∧
      σ2 = (σ.updateOrder oid fun x => { x with status := reqStatus }).appendHistory
        { orderId := oid, fromStatus := some o.status, toStatus := reqStatus,
          changedBy := none, note := "[ADMIN OVERRIDE] " ++ reason } := by
  unfold adminForceOrderStatus at heq
  split at heq
  · exact absurd heq (by simp)
  next o hget =>
    simp only [Prod.mk.injEq, HandlerResult.okForced.injEq] at heq
    exact ⟨o, hget, heq.1.2.1.symm, heq.1.2.2.symm, heq.2.symm⟩

/-- C5: when the order's driver is already set to a different agent, a pickup
claim by another driver returns the Conflict response (a constructor distinct
from the InvalidTransition response) and leaves the database, hence the
order's stage and assignment, unchanged. -/
theorem pickup_conflict_other_driver :
    ∀ (σ : Db) (d oid : Nat) (o : OrderRec) (a : Nat),
      σ.getOrder oid = some o → o.driverId = some a → a ≠ d →
      pickupOrder σ d oid =
        (.conflict "Order has already been picked up by another driver", σ) := by
  intro σ d oid o a hget hdrv _
  have hcheck : pickupCheck o = .conflictTaken := by
    unfold pickupCheck
    rw [hdrv]
    rfl
  unfold pickupOrder
  simp only [hget, hcheck]

theorem pickup_conflict_other_driver_witness :
    pickupOrder
      { orders := [{ id := 1, customerId := 2, restaurantId := 3,
                     driverId := some 5, status := .readyForPickup }],
        restaurants := [], menuItems := [], history := [], nextOrderId := 2 } 7 1 =
      (.conflict "Order has already been picked up by another driver",
        { orders := [{ id := 1, customerId := 2, restaurantId := 3,
                       driverId := some 5, status := .readyForPickup }],
          restaurants := [], menuItems := [], history := [], nextOrderId := 2 }) :=
  pickup_conflict_other_driver _ 7 1 _ 5 rfl rfl (by decide)

/-- C10: the assignment check of the pickup handler runs before transition
validation: any existing order with `driverId` set yields the Conflict
response — whatever the order's stage, and even when the requester is the
assigned driver itself — with the database unchanged. -/
theorem pickup_assignment_check_precedes_validation :
    ∀ (σ : Db) (d oid : Nat) (o : OrderRec),
      σ.getOrder oid = some o → o.driverId.isSome →
      pickupOrder σ d oid =
        (.conflict "Order has already been picked up by another driver", σ) := by
  intro σ d oid o hget hdrv
  have hcheck : pickupCheck o = .conflictTaken := by
    unfold pickupCheck
    simp [hdrv]
  unfold pickupOrder
  simp only [hget, hcheck]

theorem pickup_assignment_check_precedes_validation_witness :
    pickupOrder
      { orders := [{ id := 1, customerId := 2, restaurantId := 3,
                     driverId := some 7, status := .delivered }],
        restaurants := [], menuItems := [], history := [], nextOrderId := 2 } 7 1 =
      (.conflict "Order has already been picked up by another driver",
        { orders := [{ id := 1, customerId := 2, restaurantId := 3,
                       driverId := some 7, status := .delivered }],
          restaurants := [], menuItems := [], history := [], nextOrderId := 2 }) :=
  pickup_assignment_check_precedes_validation _ 7 1 _ rfl rfl

/-- C6: a delivery request on an order assigned to a different agent returns
the Forbidden response — neither InvalidTransition nor Conflict — even though
the requester acts in the driver role, and the database is unchanged. -/
theorem deliver_forbidden_other_agent :
    ∀ (σ : Db) (d oid : Nat) (o : OrderRec) (a : Nat),
      σ.getOrder oid = some o → o.driverId = some a → a ≠ d →
      deliverOrder σ d oid =
        (.forbidden "You are not the assigned driver for this order", σ) := by
  intro σ d oid o a hget hdrv hne
  have hc : o.driverId ≠ some d := by
    rw [hdrv]
    simpa using hne
  unfold deliverOrder
  simp only [hget]
  rw [if_pos hc]

theorem deliver_forbidden_other_agent_witness :
    deliverOrder
      { orders := [{ id := 1, customerId := 2, restaurantId := 3,
                     driverId := some 5, status := .pickedUp }],
        restaurants := [], menuItems := [], history := [], nextOrderId := 2 } 7 1 =
      (.forbidden "You are not the assigned driver for this order",
        { orders := [{ id := 1, customerId := 2, restaurantId := 3,
                       driverId := some 5, status := .pickedUp }],
          restaurants := [], menuItems := [], history := [], nextOrderId := 2 }) :=
  deliver_forbidden_other_agent _ 7 1 _ 5 rfl rfl (by decide)

/-- C7: the admin override path never consults `CanTransition`: on an existing
order it succeeds for every requested stage (including out of a terminal
stage), appending exactly one audit record whose note carries the
`[ADMIN OVERRIDE] ` tag; on a missing order it reports NotFound; it never
produces the InvalidTransition response. -/
theorem admin_override_behavior :
    ∀ (σ : Db) (oid : Nat) (reqStatus : OrderStatus) (reason : String),
      (∀ o, σ.getOrder oid = some o →
        adminForceOrderStatus σ oid reqStatus reason =
          (.okForced oid o.status reqStatus,
            (σ.updateOrder oid fun x => { x with status := reqStatus }).appendHistory
              { orderId := oid, fromStatus := some o.status, toStatus := reqStatus,
                changedBy := none, note := "[ADMIN OVERRIDE] " ++ reason })) ∧
      (σ.getOrder oid = none →
        adminForceOrderStatus σ oid reqStatus reason = (.notFound "Order not found", σ)) ∧
      (∀ r σ2 b, adminForceOrderStatus σ oid reqStatus reason = (r, σ2) →
        r ≠ .unprocessable b) := by
  intro σ oid reqStatus reason
  refine ⟨fun o hget => ?_, fun hget => ?_, fun r σ2 b heq => ?_⟩
  · unfold adminForceOrderStatus
    rw [hget]
  · unfold adminForceOrderStatus
    rw [hget]
  · unfold adminForceOrderStatus at heq
    split at heq
    · obtain ⟨hr, -⟩ := Prod.mk.injEq .. ▸ heq
      simp only [Prod.mk.injEq] at heq
      rw [← heq.1]
      simp
    · simp only [Prod.mk.injEq] at heq
      rw [← heq.1]
      simp

theorem admin_override_behavior_witness :
    adminForceOrderStatus
      { orders := [{ id := 1, customerId := 2, restaurantId := 3,
                     driverId := none, status := .delivered }],
        restaurants := [], menuItems := [], history := [], nextOrderId := 2 } 1 .placed "fix" =
      (.okForced 1 .delivered .placed,
        (Db.updateOrder
          { orders := [{ id := 1, customerId := 2, restaurantId := 3,
                         driverId := none, status := .delivered }],
            restaurants := [], menuItems := [], history := [], nextOrderId := 2 }
          1 (fun x => { x with status := .placed })).appendHistory
          { orderId := 1, fromStatus := some OrderStatus.delivered, toStatus := .placed,
            changedBy := none, note := "[ADMIN OVERRIDE] " ++ "fix" }) :=
  (admin_override_behavior
      { orders := [{ id := 1, customerId := 2, restaurantId := 3,
                     driverId := none, status := .delivered }],
        restaurants := [], menuItems := [], history := [], nextOrderId := 2 }
      1 .placed "fix").1
    { id := 1, customerId := 2, restaurantId := 3, driverId := none, status := .delivered }
    rfl

lemma getOrder_id {σ : Db} {oid : Nat} {o : OrderRec} (h : σ.getOrder oid = some o) :
    o.id = oid := by
  unfold Db.getOrder at h
  have := List.find?_some h
  simpa using this

lemma updateOrderStatus_denied_spec {σ : Db} {ownerId oid : Nat} {req : UpdateStatusRequest}
    {b : InvalidBody} {σ2 : Db}
    (heq : updateOrderStatus σ ownerId oid req = (.unprocessable b, σ2)) :
    ∃ o, σ.getOrder oid = some o ∧ σ2 = σ ∧
      b = { error := "Invalid state transition", currentStatus := o.status,
            requested := some req.status,
            reason := transitionErrMsg o.status req.status "restaurant",
            validNextStates := some (ValidTransitionsFrom o.status) } := by
  unfold updateOrderStatus at heq
  split at heq
  · exact absurd heq (by simp)
  · split at heq
    · exact absurd heq (by simp)
    next o hget =>
      split at heq
      · exact absurd heq (by simp)
      · split at heq
        next msg hcan =>
          simp only [Prod.mk.injEq, HandlerResult.unprocessable.injEq] at heq
          refine ⟨o, hget, heq.2.symm, ?_⟩
          rw [← heq.1, canTransition_some_eq hcan]
        · exact absurd heq (by simp)

lemma pickupOrder_denied_spec {σ : Db} {d oid : Nat} {b : InvalidBody} {σ2 : Db}
    (heq : pickupOrder σ d oid = (.unprocessable b, σ2)) :
    ∃ o, σ.getOrder oid = some o ∧ σ2 = σ ∧ o.driverId = none ∧
      b = { error := "Invalid state transition", currentStatus := o.status,
            requested := none, reason := transitionErrMsg o.status .pickedUp "driver",
            validNextStates := some (ValidTransitionsFrom o.status) } := by
  unfold pickupOrder at heq
  split at heq
  · exact absurd heq (by simp)
  next o hget =>
    split at heq
    · exact absurd heq (by simp)
    next b0 hchk =>
      simp only [Prod.mk.injEq, HandlerResult.unprocessable.injEq] at heq
      unfold pickupCheck at hchk
      split at hchk
      · exact absurd hchk (by simp)
      next hdrv =>
        split at hchk
        next msg hcan =>
          simp only [PickupDecision.invalid.injEq] at hchk
          refine ⟨o, hget, heq.2.symm, Option.not_isSome_iff_eq_none.mp hdrv, ?_⟩
          rw [← heq.1, ← hchk, canTransition_some_eq hcan]
        · exact absurd hchk (by simp)
    · exact absurd heq (by simp)

lemma deliverOrder_denied_spec {σ : Db} {d oid : Nat} {b : InvalidBody} {σ2 : Db}
    (heq : deliverOrder σ d oid = (.unprocessable b, σ2)) :
    ∃ o, σ.getOrder oid = some o ∧ σ2 = σ ∧ o.driverId = some d ∧
      b = { error := "Invalid state transition", currentStatus := o.status,
            requested := none, reason := transitionErrMsg o.status .delivered "driver",
            validNextStates := none } := by
  unfold deliverOrder at heq
  split at heq
  · exact absurd heq (by simp)
  next o hget =>
    split at heq
    · exact absurd heq (by simp)
    next hdrv =>
      split at heq
      next msg hcan =>
        simp only [Prod.mk.injEq, HandlerResult.unprocessable.injEq] at heq
        refine ⟨o, hget, heq.2.symm, not_ne_iff.mp hdrv, ?_⟩
        rw [← heq.1, canTransition_some_eq hcan]
      · exact absurd heq (by simp)

lemma cancelOrder_denied_spec {σ : Db} {cid oid : Nat} {b : InvalidBody} {σ2 : Db}
    (heq : cancelOrder σ cid oid = (.unprocessable b, σ2)) :
    ∃ o, σ.getOrder oid = some o ∧ σ2 = σ ∧ o.customerId = cid ∧
      b = { error := "Cannot cancel order", currentStatus := o.status,
            requested := none, reason := transitionErrMsg o.status .cancelled "customer",
            validNextStates := none } := by
  unfold cancelOrder at heq
  split at heq
  · exact absurd heq (by simp)
  next o hget =>
    split at heq
    · exact absurd heq (by simp)
    next hown =>
      split at heq
      next msg hcan =>
        simp only [Prod.mk.injEq, HandlerResult.unprocessable.injEq] at heq
        refine ⟨o, hget, heq.2.symm, not_ne_iff.mp hown, ?_⟩
        rw [← heq.1, canTransition_some_eq hcan]
      · exact absurd heq (by simp)

/-- C2 (refuted; the claim describes the spec's required atomicity, which the
code lacks): in the interleaving where drivers 7 and 8 both read order 1 from
`raceDb` before either writes, both snapshots pass the conflict check and the
validator (`pickupCheck` returns `proceed` for both, and driver 7's request
completes as a full successful `pickupOrder` run), both commits are applied,
and afterwards the database holds TWO audit records for the same
READY_FOR_PICKUP → PICKED_UP transition while driver 7's assignment has been
silently overwritten by driver 8's: both requests succeed instead of exactly
one, refuting the single-claim property on the code as written. -/
theorem pickup_race_double_success :
    raceDb.getOrder 1 = some raceSnapshot ∧
    pickupCheck raceSnapshot = .proceed ∧
    pickupOrder raceDb 7 1 = (.okPickedUp 1, pickupCommit raceDb raceSnapshot 7) ∧
    ((pickupCommit (pickupCommit raceDb raceSnapshot 7) raceSnapshot 8).getOrder 1).map
        OrderRec.driverId = some (some 8) ∧
    (pickupCommit (pickupCommit raceDb raceSnapshot 7) raceSnapshot 8).history =
      [{ orderId := 1, fromStatus := some OrderStatus.readyForPickup, toStatus := .pickedUp,
         changedBy := some 7, note := "Driver picked up the order" },
       { orderId := 1, fromStatus := some OrderStatus.readyForPickup, toStatus := .pickedUp,
         changedBy := some 8, note := "Driver picked up the order" }] :=
  ⟨rfl, rfl, rfl, rfl, rfl⟩

/-- C3: every successful transition operation appends exactly one audit
record — at creation with `fromStatus` absent and `toStatus` PLACED — and the
order's stored status afterwards equals the `toStatus` of that most recent
record. -/
theorem audit_record_per_successful_transition :
    (∀ (σ : Db) (cid : Nat) (req : PlaceOrderRequest) (oid : Nat) (σ2 : Db),
      σ.getOrder σ.nextOrderId = none →
      placeOrder σ cid req = (.okPlaced oid, σ2) →
      σ2.history = σ.history ++
        [{ orderId := oid, fromStatus := none, toStatus := .placed,
           changedBy := some cid, note := "Order placed by customer" }] ∧
      (σ2.getOrder oid).map OrderRec.status = some OrderStatus.placed) ∧
    (∀ (σ : Db) (ownerId oid : Nat) (req : UpdateStatusRequest)
        (prev new : OrderStatus) (σ2 : Db),
      updateOrderStatus σ ownerId oid req = (.okUpdated oid prev new, σ2) →
      σ2.history = σ.history ++
        [{ orderId := oid, fromStatus := some prev, toStatus := new,
           changedBy := some ownerId, note := req.note }] ∧
      (σ2.getOrder oid).map OrderRec.status = some new) ∧
    (∀ (σ : Db) (cid oid : Nat) (o : OrderRec) (σ2 : Db),
      σ.getOrder oid = some o →
      cancelOrder σ cid oid = (.okCancelled oid, σ2) →
      σ2.history = σ.history ++
        [{ orderId := oid, fromStatus := some o.status, toStatus := .cancelled,
           changedBy := some cid, note := "Order cancelled by customer" }] ∧
      (σ2.getOrder oid).map OrderRec.status = some OrderStatus.cancelled) ∧
    (∀ (σ : Db) (d oid : Nat) (o : OrderRec) (σ2 : Db),
      σ.getOrder oid = some o →
      pickupOrder σ d oid = (.okPickedUp oid, σ2) →
      σ2.history = σ.history ++
        [{ orderId := oid, fromStatus := some o.status, toStatus := .pickedUp,
           changedBy := some d, note := "Driver picked up the order" }] ∧
      (σ2.getOrder oid).map OrderRec.status = some OrderStatus.pickedUp) ∧
    (∀ (σ : Db) (d oid : Nat) (o : OrderRec) (σ2 : Db),
      σ.getOrder oid = some o →
      deliverOrder σ d oid = (.okDelivered oid, σ2) →
      σ2.history = σ.history ++
        [{ orderId := oid, fromStatus := some o.status, toStatus := .delivered,
           changedBy := some d, note := "Order delivered to customer" }] ∧
      (σ2.getOrder oid).map OrderRec.status = some OrderStatus.delivered) ∧
    (∀ (σ : Db) (oid : Nat) (reqStatus : OrderStatus) (reason : String)
        (prev new : OrderStatus) (σ2 : Db),
      adminForceOrderStatus σ oid reqStatus reason = (.okForced oid prev new, σ2) →
      σ2.history = σ.history ++
        [{ orderId := oid, fromStatus := some prev, toStatus := new,
           changedBy := none, note := "[ADMIN OVERRIDE] " ++ reason }] ∧
      (σ2.getOrder oid).map OrderRec.status = some new) := by
  refine ⟨?_, ?_, ?_, ?_, ?_, ?_⟩
  · intro σ cid req oid σ2 hfresh heq
    obtain ⟨hoid, hσ2⟩ := placeOrder_ok_spec heq
    subst hσ2
    subst hoid
    refine ⟨rfl, ?_⟩
    have hfresh2 : σ.orders.find? (fun o => o.id == σ.nextOrderId) = none := hfresh
    rw [getOrder_appendHistory]
    unfold Db.getOrder
    simp only
    rw [find?_append_of_none _ _ hfresh2]
    rw [List.find?_cons_of_pos _ (by simp)]
    rfl
  · intro σ ownerId oid req prev new σ2 heq
    obtain ⟨o, hget, hprev, hnew, hcan, hσ2⟩ := updateOrderStatus_ok_spec heq
    subst hprev
    subst hnew
    subst hσ2
    refine ⟨rfl, ?_⟩
    rw [getOrder_appendHistory, getOrder_setStatus, hget]
    rfl
  · intro σ cid oid o σ2 hget0 heq
    obtain ⟨o2, hget, hcust, hcan, hσ2⟩ := cancelOrder_ok_spec heq
    have ho : o2 = o := Option.some.inj (hget.symm.trans hget0)
    subst ho
    subst hσ2
    refine ⟨rfl, ?_⟩
    rw [getOrder_appendHistory, getOrder_setStatus, hget0]
    rfl
  · intro σ d oid o σ2 hget0 heq
    obtain ⟨o2, hget, hdrv, hcan, hσ2⟩ := pickupOrder_ok_spec heq
    have ho : o2 = o := Option.some.inj (hget.symm.trans hget0)
    subst ho
    subst hσ2
    have hid := getOrder_id hget0
    constructor
    · unfold pickupCommit
      rw [hid]
      rfl
    · unfold pickupCommit
      rw [hid, getOrder_appendHistory, getOrder_setStatusDriver, hget0]
      rfl
  · intro σ d oid o σ2 hget0 heq
    obtain ⟨o2, hget, hdrv, hcan, hσ2⟩ := deliverOrder_ok_spec heq
    have ho : o2 = o := Option.some.inj (hget.symm.trans hget0)
    subst ho
    subst hσ2
    refine ⟨rfl, ?_⟩
    rw [getOrder_appendHistory, getOrder_setStatus, hget0]
    rfl
  · intro σ oid reqStatus reason prev new σ2 heq
    obtain ⟨o, hget, hprev, hnew, hσ2⟩ := adminForce_ok_spec heq
    subst hprev
    subst hnew
    subst hσ2
    refine ⟨rfl, ?_⟩
    rw [getOrder_appendHistory, getOrder_setStatus, hget]
    rfl

theorem audit_record_per_successful_transition_witness :
    ((adminForceOrderStatus
        { orders := [{ id := 1, customerId := 2, restaurantId := 3,
                       driverId := none, status := .placed }],
          restaurants := [], menuItems := [], history := [], nextOrderId := 2 }
        1 .confirmed "ok").2).history =
      [] ++ [{ orderId := 1, fromStatus := some OrderStatus.placed,
               toStatus := .confirmed, changedBy := none,
               note := "[ADMIN OVERRIDE] " ++ "ok" }] ∧
    (((adminForceOrderStatus
        { orders := [{ id := 1, customerId := 2, restaurantId := 3,
                       driverId := none, status := .placed }],
          restaurants := [], menuItems := [], history := [], nextOrderId := 2 }
        1 .confirmed "ok").2).getOrder 1).map OrderRec.status =
      some OrderStatus.confirmed := by
  exact audit_record_per_successful_transition.2.2.2.2.2
    { orders := [{ id := 1, customerId := 2, restaurantId := 3,
                   driverId := none, status := .placed }],
      restaurants := [], menuItems := [], history := [], nextOrderId := 2 }
    1 .confirmed "ok" .placed .confirmed _ rfl

/-- C8 counterexample: a customer-cancel denial on an order in PICKED_UP is
an InvalidTransition response whose structured `valid_next_states` field is
absent (`none`), although `ValidTransitionsFrom PICKED_UP` is the nonempty
`[DELIVERED]`: the denial does not carry the full legal-next-stage set as
structured detail. -/
theorem cancel_denial_lacks_next_states :
    cancelOrder
      { orders := [{ id := 1, customerId := 2, restaurantId := 3,
                     driverId := some 7, status := .pickedUp }],
        restaurants := [], menuItems := [], history := [], nextOrderId := 2 } 2 1 =
      (.unprocessable
        { error := "Cannot cancel order", currentStatus := .pickedUp, requested := none,
          reason := transitionErrMsg .pickedUp .cancelled "customer",
          validNextStates := none },
        { orders := [{ id := 1, customerId := 2, restaurantId := 3,
                       driverId := some 7, status := .pickedUp }],
          restaurants := [], menuItems := [], history := [], nextOrderId := 2 }) ∧
    ValidTransitionsFrom .pickedUp = [.delivered] :=
  ⟨rfl, rfl⟩

/-- C8 (amended): every InvalidTransition denial carries the order's current
stage as a structured field and a reason string from the validator that ends
with the textual enumeration of `ValidTransitionsFrom`; the restaurant-update
and driver-pickup denials additionally carry the full legal-next-stage set as
a structured `valid_next_states` list, but the driver-delivery and
customer-cancel denials do not (`none`). -/
theorem invalid_transition_denial_detail :
    (∀ (σ : Db) (ownerId oid : Nat) (req : UpdateStatusRequest) (b : InvalidBody)
        (σ2 : Db) (o : OrderRec),
      updateOrderStatus σ ownerId oid req = (.unprocessable b, σ2) →
      σ.getOrder oid = some o →
      b.currentStatus = o.status ∧
        b.reason = transitionErrMsg o.status req.status "restaurant" ∧
        b.validNextStates = some (ValidTransitionsFrom o.status)) ∧
    (∀ (σ : Db) (d oid : Nat) (b : InvalidBody) (σ2 : Db) (o : OrderRec),
      pickupOrder σ d oid = (.unprocessable b, σ2) →
      σ.getOrder oid = some o →
      b.currentStatus = o.status ∧
        b.reason = transitionErrMsg o.status .pickedUp "driver" ∧
        b.validNextStates = some (ValidTransitionsFrom o.status)) ∧
    (∀ (σ : Db) (d oid : Nat) (b : InvalidBody) (σ2 : Db) (o : OrderRec),
      deliverOrder σ d oid = (.unprocessable b, σ2) →
      σ.getOrder oid = some o →
      b.currentStatus = o.status ∧
        b.reason = transitionErrMsg o.status .delivered "driver" ∧
        b.validNextStates = none) ∧
    (∀ (σ : Db) (cid oid : Nat) (b : InvalidBody) (σ2 : Db) (o : OrderRec),
      cancelOrder σ cid oid = (.unprocessable b, σ2) →
      σ.getOrder oid = some o →
      b.currentStatus = o.status ∧
        b.reason = transitionErrMsg o.status .cancelled "customer" ∧
        b.validNextStates = none) ∧
    (∀ (f t : OrderStatus) (a : String),
      transitionErrMsg f t a =
        ("invalid transition: " ++ f.toGoString ++ " → " ++ t.toGoString ++
          " is not allowed for actor " ++ a ++ ". " ++ "Valid transitions from " ++
          f.toGoString ++ " are: ") ++ describeValidFrom f) := by
  refine ⟨?_, ?_, ?_, ?_, fun f t a => rfl⟩
  · intro σ ownerId oid req b σ2 o heq hget0
    obtain ⟨o2, hget, -, hb⟩ := updateOrderStatus_denied_spec heq
    have ho : o2 = o := Option.some.inj (hget.symm.trans hget0)
    subst ho
    subst hb
    exact ⟨rfl, rfl, rfl⟩
  · intro σ d oid b σ2 o heq hget0
    obtain ⟨o2, hget, -, -, hb⟩ := pickupOrder_denied_spec heq
    have ho : o2 = o := Option.some.inj (hget.symm.trans hget0)
    subst ho
    subst hb
    exact ⟨rfl, rfl, rfl⟩
  · intro σ d oid b σ2 o heq hget0
    obtain ⟨o2, hget, -, -, hb⟩ := deliverOrder_denied_spec heq
    have ho : o2 = o := Option.some.inj (hget.symm.trans hget0)
    subst ho
    subst hb
    exact ⟨rfl, rfl, rfl⟩
  · intro σ cid oid b σ2 o heq hget0
    obtain ⟨o2, hget, -, -, hb⟩ := cancelOrder_denied_spec heq
    have ho : o2 = o := Option.some.inj (hget.symm.trans hget0)
    subst ho
    subst hb
    exact ⟨rfl, rfl, rfl⟩

theorem invalid_transition_denial_detail_witness :
    ({ error := "Cannot cancel order", currentStatus := .pickedUp, requested := none,
       reason := transitionErrMsg .pickedUp .cancelled "customer",
       validNextStates := none } : InvalidBody).currentStatus = OrderStatus.pickedUp ∧
    ({ error := "Cannot cancel order", currentStatus := .pickedUp, requested := none,
       reason := transitionErrMsg .pickedUp .cancelled "customer",
       validNextStates := none } : InvalidBody).reason =
      transitionErrMsg OrderStatus.pickedUp .cancelled "customer" ∧
    ({ error := "Cannot cancel order", currentStatus := .pickedUp, requested := none,
       reason := transitionErrMsg .pickedUp .cancelled "customer",
       validNextStates := none } : InvalidBody).validNextStates = none := by
  exact invalid_transition_denial_detail.2.2.2.1
    { orders := [{ id := 1, customerId := 2, restaurantId := 3,
                   driverId := some 7, status := .pickedUp }],
      restaurants := [], menuItems := [], history := [], nextOrderId := 2 }
    2 1 _ _ { id := 1, customerId := 2, restaurantId := 3,
              driverId := some 7, status := .pickedUp } rfl rfl

/-- C9 counterexample: a successful admin-override transition — triggered by
an (authenticated) admin actor, not by the system — appends an audit record
whose `changedBy` is absent: the override path does not capture the actorId
of the actor who triggered it. -/
theorem admin_record_lacks_actor :
    (adminForceOrderStatus
      { orders := [{ id := 1, customerId := 2, restaurantId := 3,
                     driverId := none, status := .placed }],
        restaurants := [], menuItems := [], history := [], nextOrderId := 2 }
      1 .confirmed "fix").1 = .okForced 1 .placed .confirmed ∧
    ((adminForceOrderStatus
      { orders := [{ id := 1, customerId := 2, restaurantId := 3,
                     driverId := none, status := .placed }],
        restaurants := [], menuItems := [], history := [], nextOrderId := 2 }
      1 .confirmed "fix").2).history =
      [{ orderId := 1, fromStatus := some OrderStatus.placed, toStatus := .confirmed,
         changedBy := none, note := "[ADMIN OVERRIDE] fix" }] :=
  ⟨rfl, rfl⟩

/-- C9 (amended): the customer, restaurant and driver transition handlers
each append their audit record with `changedBy` set to the acting user's id,
but the admin override path appends its record with `changedBy` unset (the Go
zero value), marked only by the `[ADMIN OVERRIDE] ` note tag. -/
theorem transition_records_changedBy :
    (∀ (σ : Db) (cid : Nat) (req : PlaceOrderRequest) (oid : Nat) (σ2 : Db),
      placeOrder σ cid req = (.okPlaced oid, σ2) →
      σ2.history.map HistRec.changedBy = σ.history.map HistRec.changedBy ++ [some cid]) ∧
    (∀ (σ : Db) (ownerId oid : Nat) (req : UpdateStatusRequest)
        (prev new : OrderStatus) (σ2 : Db),
      updateOrderStatus σ ownerId oid req = (.okUpdated oid prev new, σ2) →
      σ2.history.map HistRec.changedBy = σ.history.map HistRec.changedBy ++ [some ownerId]) ∧
    (∀ (σ : Db) (cid oid : Nat) (σ2 : Db),
      cancelOrder σ cid oid = (.okCancelled oid, σ2) →
      σ2.history.map HistRec.changedBy = σ.history.map HistRec.changedBy ++ [some cid]) ∧
    (∀ (σ : Db) (d oid : Nat) (σ2 : Db),
      pickupOrder σ d oid = (.okPickedUp oid, σ2) →
      σ2.history.map HistRec.changedBy = σ.history.map HistRec.changedBy ++ [some d]) ∧
    (∀ (σ : Db) (d oid : Nat) (σ2 : Db),
      deliverOrder σ d oid = (.okDelivered oid, σ2) →
      σ2.history.map HistRec.changedBy = σ.history.map HistRec.changedBy ++ [some d]) ∧
    (∀ (σ : Db) (oid : Nat) (reqStatus : OrderStatus) (reason : String)
        (prev new : OrderStatus) (σ2 : Db),
      adminForceOrderStatus σ oid reqStatus reason = (.okForced oid prev new, σ2) →
      σ2.history.map HistRec.changedBy = σ.history.map HistRec.changedBy ++ [none]) := by
  refine ⟨?_, ?_, ?_, ?_, ?_, ?_⟩
  · intro σ cid req oid σ2 heq
    obtain ⟨-, hσ2⟩ := placeOrder_ok_spec heq
    subst hσ2
    simp [Db.appendHistory]
  · intro σ ownerId oid req prev new σ2 heq
    obtain ⟨o, -, -, -, -, hσ2⟩ := updateOrderStatus_ok_spec heq
    subst hσ2
    simp [Db.appendHistory, Db.updateOrder]
  · intro σ cid oid σ2 heq
    obtain ⟨o, -, -, -, hσ2⟩ := cancelOrder_ok_spec heq
    subst hσ2
    simp [Db.appendHistory, Db.updateOrder]
  · intro σ d oid σ2 heq
    obtain ⟨o, -, -, -, hσ2⟩ := pickupOrder_ok_spec heq
    subst hσ2
    simp [pickupCommit, Db.appendHistory, Db.updateOrder]
  · intro σ d oid σ2 heq
    obtain ⟨o, -, -, -, hσ2⟩ := deliverOrder_ok_spec heq
    subst hσ2
    simp [Db.appendHistory, Db.updateOrder]
  · intro σ oid reqStatus reason prev new σ2 heq
    obtain ⟨o, -, -, -, hσ2⟩ := adminForce_ok_spec heq
    subst hσ2
    simp [Db.appendHistory, Db.updateOrder]

theorem transition_records_changedBy_witness :
    ((adminForceOrderStatus
        { orders := [{ id := 1, customerId := 2, restaurantId := 3,
                       driverId := none, status := .placed }],
          restaurants := [], menuItems := [], history := [], nextOrderId := 2 }
        1 .confirmed "fix").2).history.map HistRec.changedBy =
      ([] : List HistRec).map HistRec.changedBy ++ [none] := by
  exact transition_records_changedBy.2.2.2.2.2
    { orders := [{ id := 1, customerId := 2, restaurantId := 3,
                   driverId := none, status := .placed }],
      restaurants := [], menuItems := [], history := [], nextOrderId := 2 }
    1 .confirmed "fix" .placed .confirmed _ rfl

end FoodDelivery
